import Mathlib

/-! OpenTag3D filament tag codec and merge engine: a shallow embedding of
`klippy/extras/opentag3d.py` (classes `OpenTag3D` and `OpenTag3DReader`).

Modelling conventions:
* Python `bytes` are `List ℕ` whose elements are below 256.
* Python `str` is `String`; `str.strip` is `pyStripChars` (Python's Unicode
  whitespace set); `bytes.decode(..., errors='ignore')` is implemented for
  the two encodings the module uses (ASCII and UTF-8), dropping undecodable
  bytes exactly as the `ignore` handler does.
* Python `float` is `ℚ`: the only arithmetic performed on floats is
  multiplication by 5 and division by 1000 on small integers, which is exact.
* A G-code parameter that may be absent (`gcmd.get(..., None)`) is an
  `Option`; the command dispatcher's numeric parsing is out of scope, so the
  numeric parameters arrive already typed.
* `printer.command_error` exceptions are the `CommandError` type; raising
  aborts the command before the reader callback runs, so the command handler
  returns the unchanged state together with the error.
-/

set_option maxRecDepth 400000

deriving instance DecidableEq for Except

namespace OpenTag3D

/-! ### Address and length constants (`opentag3d.py` lines 9–41) -/

def CORE_START_ADDR : ℕ := 0x10
def CORE_END_ADDR : ℕ := 0x9F
def CORE_LENGTH : ℕ := CORE_END_ADDR - CORE_START_ADDR + 1

def TAG_FORMAT_ADDR : ℕ := 0x10
def TAG_VERSION_ADDR : ℕ := 0x12
def MANUFACTURER_ADDR : ℕ := 0x14
def BASE_MATERIAL_ADDR : ℕ := 0x24
def MATERIAL_MODIFIERS_ADDR : ℕ := 0x29
def COLOR_NAME_ADDR : ℕ := 0x2E
def COLOR_1_ADDR : ℕ := 0x4E
def COLOR_2_ADDR : ℕ := 0x52
def COLOR_3_ADDR : ℕ := 0x56
def TARGET_DIAMETER_ADDR : ℕ := 0x5A
def TARGET_WEIGHT_ADDR : ℕ := 0x5C
def PRINT_TEMPERATURE_ADDR : ℕ := 0x5E
def BED_TEMPERATURE_ADDR : ℕ := 0x5F
def DENSITY_ADDR : ℕ := 0x60
def ONLINE_URL_ADDR : ℕ := 0x6D

def TAG_FORMAT_LEN : ℕ := 2
def TAG_VERSION_LEN : ℕ := 2
def MANUFACTURER_LEN : ℕ := 16
def BASE_MATERIAL_LEN : ℕ := 5
def MATERIAL_MODIFIERS_LEN : ℕ := 5
def COLOR_NAME_LEN : ℕ := 32
def COLOR_LEN : ℕ := 4
def TARGET_DIAMETER_LEN : ℕ := 2
def TARGET_WEIGHT_LEN : ℕ := 2
def PRINT_TEMPERATURE_LEN : ℕ := 1
def BED_TEMPERATURE_LEN : ℕ := 1
def DENSITY_LEN : ℕ := 2
def ONLINE_URL_LEN : ℕ := 32

/-- A Python `bytes` value: every element is an octet. -/
def IsBytes (l : List ℕ) : Prop := ∀ b ∈ l, b < 256

instance (l : List ℕ) : Decidable (IsBytes l) := by
  unfold IsBytes; infer_instance

/-! ### String decoding helpers (`OpenTag3DReader._decode_string`) -/

/-- Characters removed from both ends by Python's `str.strip()`
(the `str.isspace` character set). -/
def isPyWhitespace (c : Char) : Bool :=
  let n := c.toNat
  n == 0x20 || n == 0x09 || n == 0x0a || n == 0x0b || n == 0x0c || n == 0x0d ||
  (0x1c ≤ n && n ≤ 0x1f) || n == 0x85 || n == 0xa0 || n == 0x1680 ||
  (0x2000 ≤ n && n ≤ 0x200a) || n == 0x2028 || n == 0x2029 || n == 0x202f ||
  n == 0x205f || n == 0x3000

/-- Python `str.strip()` on a character list. -/
def pyStripChars (l : List Char) : List Char :=
  ((l.dropWhile isPyWhitespace).reverse.dropWhile isPyWhitespace).reverse

/-- Python `bytes.decode('ascii', errors='ignore')`: bytes above 0x7F are
dropped, the rest map to the corresponding code point. -/
def decodeAsciiIgnore : List ℕ → List Char
  | [] => []
  | b :: rest =>
    if b < 0x80 then Char.ofNat b :: decodeAsciiIgnore rest
    else decodeAsciiIgnore rest

/-- Lower bound of the second byte of a three-byte UTF-8 sequence with the
given lead byte (0xE0 forbids overlong encodings, 0xED forbids surrogates). -/
def utf8Cont2Lo (b : ℕ) : ℕ := if b == 0xE0 then 0xA0 else 0x80

/-- Upper bound of the second byte of a three-byte UTF-8 sequence. -/
def utf8Cont2Hi (b : ℕ) : ℕ := if b == 0xED then 0x9F else 0xBF

/-- Lower bound of the second byte of a four-byte UTF-8 sequence. -/
def utf8Cont4Lo (b : ℕ) : ℕ := if b == 0xF0 then 0x90 else 0x80

/-- Upper bound of the second byte of a four-byte UTF-8 sequence. -/
def utf8Cont4Hi (b : ℕ) : ℕ := if b == 0xF4 then 0x8F else 0xBF

/-- Try to decode one complete multi-byte UTF-8 sequence whose lead byte is
`b` and whose remaining input is `rest`.  Returns the code point and the
number of continuation bytes consumed, or `none` when `b` does not begin a
complete valid sequence. -/
def utf8DecodeMulti (b : ℕ) (rest : List ℕ) : Option (ℕ × ℕ) :=
  if 0xC2 ≤ b ∧ b ≤ 0xDF then
    match rest with
    | b2 :: _ =>
      if 0x80 ≤ b2 ∧ b2 ≤ 0xBF then
        some ((b - 0xC0) * 0x40 + (b2 - 0x80), 1)
      else none
    | [] => none
  else if 0xE0 ≤ b ∧ b ≤ 0xEF then
    match rest with
    | b2 :: b3 :: _ =>
      if utf8Cont2Lo b ≤ b2 ∧ b2 ≤ utf8Cont2Hi b ∧ 0x80 ≤ b3 ∧ b3 ≤ 0xBF then
        some ((b - 0xE0) * 0x1000 + (b2 - 0x80) * 0x40 + (b3 - 0x80), 2)
      else none
    | _ => none
  else if 0xF0 ≤ b ∧ b ≤ 0xF4 then
    match rest with
    | b2 :: b3 :: b4 :: _ =>
      if utf8Cont4Lo b ≤ b2 ∧ b2 ≤ utf8Cont4Hi b ∧
          0x80 ≤ b3 ∧ b3 ≤ 0xBF ∧ 0x80 ≤ b4 ∧ b4 ≤ 0xBF then
        some ((b - 0xF0) * 0x40000 + (b2 - 0x80) * 0x1000 +
              (b3 - 0x80) * 0x40 + (b4 - 0x80), 3)
      else none
    | _ => none
  else none

/-- Python `bytes.decode('utf-8', errors='ignore')`: decode valid sequences,
skip undecodable bytes.  (On an invalid sequence CPython's `ignore` handler
drops the maximal valid prefix and resumes at the first offending byte;
skipping the lead byte and re-examining the following bytes — which are then
bare continuation bytes and are themselves skipped — produces the same
character output.) -/
def decodeUtf8Ignore : List ℕ → List Char
  | [] => []
  | b :: rest =>
    if b < 0x80 then Char.ofNat b :: decodeUtf8Ignore rest
    else
      match utf8DecodeMulti b rest with
      | some (cp, k) => Char.ofNat cp :: decodeUtf8Ignore (rest.drop k)
      | none => decodeUtf8Ignore rest
termination_by l => l.length
decreasing_by
  · simp
  · simp [List.length_drop]; omega
  · simp

/-- `OpenTag3DReader._decode_string` (line 208): split at the first null
byte, decode with the requested encoding dropping undecodable bytes, then
strip surrounding whitespace. -/
def decode_string (data : List ℕ) (ascii : Bool) : String :=
  let head := data.takeWhile (fun b => b != 0)
  let chars := if ascii then decodeAsciiIgnore head else decodeUtf8Ignore head
  String.mk (pyStripChars chars)

/-! ### RGBA formatting and hex parsing -/

/-- Upper-case hexadecimal digit for a value below 16 (as produced by
Python's `"%02X"`). -/
def hexDigitChar (n : ℕ) : Char :=
  if n < 10 then Char.ofNat (0x30 + n) else Char.ofNat (0x37 + n)

/-- `OpenTag3DReader._format_rgba` (line 211): a 4-byte slice becomes
`#RRGGBBAA`; any other length, or all-zero bytes, becomes the empty string. -/
def format_rgba (data : List ℕ) : String :=
  if data.length ≠ COLOR_LEN then ""
  else if data.all (fun b => b == 0) then ""
  else String.mk ('#' ::
    (data.map (fun b => [hexDigitChar (b / 16), hexDigitChar (b % 16)])).flatten)

/-- The character class `[0-9a-fA-F]` used by `_parse_raw_hex` and
`_parse_rgba_param`. -/
def isPyHexDigit (c : Char) : Bool :=
  let n := c.toNat
  (0x30 ≤ n && n ≤ 0x39) || (0x61 ≤ n && n ≤ 0x66) || (0x41 ≤ n && n ≤ 0x46)

/-- Numeric value of a hexadecimal digit character. -/
def hexCharVal (c : Char) : ℕ :=
  let n := c.toNat
  if n ≤ 0x39 then n - 0x30 else if 0x61 ≤ n then n - 0x57 else n - 0x37

/-- `bytes.fromhex` on an even-length string of hex digits. -/
def hexPairsToBytes : List Char → List ℕ
  | c1 :: c2 :: rest => (hexCharVal c1 * 16 + hexCharVal c2) :: hexPairsToBytes rest
  | _ => []

/-- `OpenTag3DReader._parse_raw_hex` (line 231): strip every character that
is not a hex digit; fail on an empty or odd-length result; otherwise decode
pairs of digits into bytes.  (After the filter, `bytes.fromhex` cannot raise,
so the source's `except ValueError` branch is unreachable.) -/
def parse_raw_hex (raw_hex : String) : Option (List ℕ) :=
  let hex_data := raw_hex.data.filter isPyHexDigit
  if hex_data.length = 0 ∨ hex_data.length % 2 = 1 then none
  else some (hexPairsToBytes hex_data)

/-! ### The core decoder (`OpenTag3DReader._parse_core_data`) -/

/-- Big-endian `int.from_bytes` (zero on the empty slice). -/
def fromBytesBE (l : List ℕ) : ℕ := l.foldl (fun a b => a * 256 + b) 0

/-- The `_slice` closure of `_parse_core_data` (line 250): a field slice,
empty when the computed range falls outside the buffer. -/
def pySlice (raw : List ℕ) (base_offset : ℤ) (addr len : ℕ) : List ℕ :=
  let start : ℤ := (addr : ℤ) + base_offset
  let stop : ℤ := start + (len : ℤ)
  if start < 0 ∨ stop > (raw.length : ℤ) then []
  else (raw.drop start.toNat).take len

/-- Layout selection of `_parse_core_data` (lines 243–248): full dump when
the buffer covers addresses from 0x00, offset-relative when it covers only
the core window, failure otherwise. -/
def baseOffset (raw : List ℕ) : Option ℤ :=
  if CORE_START_ADDR + CORE_LENGTH ≤ raw.length then some 0
  else if CORE_LENGTH ≤ raw.length then some (-(CORE_START_ADDR : ℤ))
  else none

/-- A decoded `TagRecord`: the dictionary returned by `_parse_core_data`
for an accepted buffer (lines 300–320). -/
structure TagRecord where
  tag_format : String
  tag_version : ℚ
  filament_manufacturer : String
  base_material : String
  material_modifiers : String
  color_name : String
  color_1_rgba : String
  color_2_rgba : String
  color_3_rgba : String
  target_diameter_um : ℤ
  target_weight_g : ℤ
  print_temperature : ℚ
  bed_temperature : ℚ
  density_g_cm3 : ℚ
  online_data_url : String
  filament_material : String
  filament_color : String
  recommended_nozzle_temp : ℚ
  recommended_bed_temp : ℚ
  deriving DecidableEq, Repr

/-- Result of a successful `_parse_core_data` call: either the two-key
sentinel dictionary for a readable-but-foreign format (line 260), or a full
`TagRecord`. -/
inductive DecodeResult where
  | unknownFormat (tag_format : String) (tag_version : ℚ)
  | record (r : TagRecord)
  deriving DecidableEq, Repr

/-- The `tag_format` entry of a `_parse_core_data` result
(`parsed.get('tag_format')`). -/
def DecodeResult.tagFormat : DecodeResult → String
  | .unknownFormat tf _ => tf
  | .record r => r.tag_format

/-- The fifteen field slices read by `_parse_core_data`. -/
structure CoreSlices where
  tag_format : List ℕ
  tag_version : List ℕ
  manufacturer : List ℕ
  base_material : List ℕ
  material_modifiers : List ℕ
  color_name : List ℕ
  color_1 : List ℕ
  color_2 : List ℕ
  color_3 : List ℕ
  target_diameter : List ℕ
  target_weight : List ℕ
  print_temperature : List ℕ
  bed_temperature : List ℕ
  density : List ℕ
  online_url : List ℕ
  deriving DecidableEq, Repr

/-- Apply the slice function at every field's address and length. -/
def readSlices (sl : ℕ → ℕ → List ℕ) : CoreSlices where
  tag_format := sl TAG_FORMAT_ADDR TAG_FORMAT_LEN
  tag_version := sl TAG_VERSION_ADDR TAG_VERSION_LEN
  manufacturer := sl MANUFACTURER_ADDR MANUFACTURER_LEN
  base_material := sl BASE_MATERIAL_ADDR BASE_MATERIAL_LEN
  material_modifiers := sl MATERIAL_MODIFIERS_ADDR MATERIAL_MODIFIERS_LEN
  color_name := sl COLOR_NAME_ADDR COLOR_NAME_LEN
  color_1 := sl COLOR_1_ADDR COLOR_LEN
  color_2 := sl COLOR_2_ADDR COLOR_LEN
  color_3 := sl COLOR_3_ADDR COLOR_LEN
  target_diameter := sl TARGET_DIAMETER_ADDR TARGET_DIAMETER_LEN
  target_weight := sl TARGET_WEIGHT_ADDR TARGET_WEIGHT_LEN
  print_temperature := sl PRINT_TEMPERATURE_ADDR PRINT_TEMPERATURE_LEN
  bed_temperature := sl BED_TEMPERATURE_ADDR BED_TEMPERATURE_LEN
  density := sl DENSITY_ADDR DENSITY_LEN
  online_url := sl ONLINE_URL_ADDR ONLINE_URL_LEN

/-- Field extraction and conversion of `_parse_core_data` (lines 257–320),
operating on the already-read slices. -/
def parseCore (cs : CoreSlices) : DecodeResult :=
  let tag_format := decode_string cs.tag_format true
  if tag_format ≠ "" ∧ tag_format ≠ "OT" then
    DecodeResult.unknownFormat tag_format 0
  else
    let tag_version_raw := fromBytesBE cs.tag_version
    let manufacturer := decode_string cs.manufacturer false
    let base_material := decode_string cs.base_material false
    let material_modifiers := decode_string cs.material_modifiers false
    let color_name := decode_string cs.color_name false
    let color_1_rgba := format_rgba cs.color_1
    let color_2_rgba := format_rgba cs.color_2
    let color_3_rgba := format_rgba cs.color_3
    let target_diameter_um := fromBytesBE cs.target_diameter
    let target_weight_g := fromBytesBE cs.target_weight
    let print_temp_raw := fromBytesBE cs.print_temperature
    let bed_temp_raw := fromBytesBE cs.bed_temperature
    let density_raw := fromBytesBE cs.density
    let online_url := decode_string cs.online_url true
    let print_temperature : ℚ := (print_temp_raw : ℚ) * 5
    let bed_temperature : ℚ := (bed_temp_raw : ℚ) * 5
    let density_g_cm3 : ℚ := if density_raw ≠ 0 then (density_raw : ℚ) / 1000 else 0
    let filament_material :=
      if base_material ≠ "" ∧ material_modifiers ≠ "" then
        base_material ++ " " ++ material_modifiers
      else base_material
    let filament_color := if color_name ≠ "" then color_name else color_1_rgba
    DecodeResult.record {
      tag_format := tag_format
      tag_version := (tag_version_raw : ℚ) / 1000
      filament_manufacturer := manufacturer
      base_material := base_material
      material_modifiers := material_modifiers
      color_name := color_name
      color_1_rgba := color_1_rgba
      color_2_rgba := color_2_rgba
      color_3_rgba := color_3_rgba
      target_diameter_um := (target_diameter_um : ℤ)
      target_weight_g := (target_weight_g : ℤ)
      print_temperature := print_temperature
      bed_temperature := bed_temperature
      density_g_cm3 := density_g_cm3
      online_data_url := online_url
      filament_material := filament_material
      filament_color := filament_color
      recommended_nozzle_temp := print_temperature
      recommended_bed_temp := bed_temperature }

/-- `OpenTag3DReader._parse_core_data` (line 240): `none` for a missing or
too-short buffer, otherwise the decoded result under the selected layout. -/
def parse_core_data : Option (List ℕ) → Option DecodeResult
  | none => none
  | some raw_data =>
    (baseOffset raw_data).map fun off => parseCore (readSlices (pySlice raw_data off))

/-- The null- and whitespace-trimmed `tag_format` string a buffer decodes to
(empty when the buffer is too short to decode at all). -/
def coreTagFormat (raw : List ℕ) : String :=
  match baseOffset raw with
  | some off => decode_string (pySlice raw off TAG_FORMAT_ADDR TAG_FORMAT_LEN) true
  | none => ""

/-! ### Tag state and the merge command -/

/-- The `OpenTag3D.tag_data` dictionary (lines 58–80).  Its key set is fixed
at construction; every merge replaces values for the keys it supplies. -/
structure TagState where
  tag_format : String
  tag_version : ℚ
  filament_manufacturer : String
  base_material : String
  material_modifiers : String
  color_name : String
  color_1_rgba : String
  color_2_rgba : String
  color_3_rgba : String
  target_diameter_um : ℤ
  target_weight_g : ℤ
  print_temperature : ℚ
  bed_temperature : ℚ
  density_g_cm3 : ℚ
  online_data_url : String
  filament_material : String
  filament_color : String
  recommended_nozzle_temp : ℚ
  recommended_bed_temp : ℚ
  batch_id : String
  remaining_filament : ℚ
  deriving DecidableEq, Repr

/-- The all-empty/zero state built in `OpenTag3D.__init__`. -/
def initState : TagState where
  tag_format := ""
  tag_version := 0
  filament_manufacturer := ""
  base_material := ""
  material_modifiers := ""
  color_name := ""
  color_1_rgba := ""
  color_2_rgba := ""
  color_3_rgba := ""
  target_diameter_um := 0
  target_weight_g := 0
  print_temperature := 0
  bed_temperature := 0
  density_g_cm3 := 0
  online_data_url := ""
  filament_material := ""
  filament_color := ""
  recommended_nozzle_temp := 0
  recommended_bed_temp := 0
  batch_id := ""
  remaining_filament := 0

/-- The `update_data` dictionary of `cmd_SET_OPENTAG3D_DATA`: a partial map
over the state's keys (`none` = key absent). -/
structure UpdateSet where
  tag_format : Option String := none
  tag_version : Option ℚ := none
  filament_manufacturer : Option String := none
  base_material : Option String := none
  material_modifiers : Option String := none
  color_name : Option String := none
  color_1_rgba : Option String := none
  color_2_rgba : Option String := none
  color_3_rgba : Option String := none
  target_diameter_um : Option ℤ := none
  target_weight_g : Option ℤ := none
  print_temperature : Option ℚ := none
  bed_temperature : Option ℚ := none
  density_g_cm3 : Option ℚ := none
  online_data_url : Option String := none
  filament_material : Option String := none
  filament_color : Option String := none
  recommended_nozzle_temp : Option ℚ := none
  recommended_bed_temp : Option ℚ := none
  batch_id : Option String := none
  remaining_filament : Option ℚ := none
  deriving DecidableEq, Repr

/-- The empty `update_data` dictionary. -/
def emptyUpdate : UpdateSet := {}

/-- Python truthiness of `update_data` (`if self.callback and update_data:`):
the dictionary is non-empty. -/
def updateNonempty (u : UpdateSet) : Bool :=
  u.tag_format.isSome || u.tag_version.isSome || u.filament_manufacturer.isSome ||
  u.base_material.isSome || u.material_modifiers.isSome || u.color_name.isSome ||
  u.color_1_rgba.isSome || u.color_2_rgba.isSome || u.color_3_rgba.isSome ||
  u.target_diameter_um.isSome || u.target_weight_g.isSome ||
  u.print_temperature.isSome || u.bed_temperature.isSome ||
  u.density_g_cm3.isSome || u.online_data_url.isSome ||
  u.filament_material.isSome || u.filament_color.isSome ||
  u.recommended_nozzle_temp.isSome || u.recommended_bed_temp.isSome ||
  u.batch_id.isSome || u.remaining_filament.isSome

/-- `update_data.update(parsed)` (line 335): the keys of the parsed
dictionary, as an update set.  The foreign-format sentinel carries only
`tag_format` and `tag_version`; a full record carries every decoded key
(but never `batch_id` or `remaining_filament`). -/
def DecodeResult.toUpdateSet : DecodeResult → UpdateSet
  | .unknownFormat tf tv => { tag_format := some tf, tag_version := some tv }
  | .record r =>
    { tag_format := some r.tag_format
      tag_version := some r.tag_version
      filament_manufacturer := some r.filament_manufacturer
      base_material := some r.base_material
      material_modifiers := some r.material_modifiers
      color_name := some r.color_name
      color_1_rgba := some r.color_1_rgba
      color_2_rgba := some r.color_2_rgba
      color_3_rgba := some r.color_3_rgba
      target_diameter_um := some r.target_diameter_um
      target_weight_g := some r.target_weight_g
      print_temperature := some r.print_temperature
      bed_temperature := some r.bed_temperature
      density_g_cm3 := some r.density_g_cm3
      online_data_url := some r.online_data_url
      filament_material := some r.filament_material
      filament_color := some r.filament_color
      recommended_nozzle_temp := some r.recommended_nozzle_temp
      recommended_bed_temp := some r.recommended_bed_temp }

/-- The `printer.command_error` exceptions `cmd_SET_OPENTAG3D_DATA` can
raise, by message. -/
inductive CommandError where
  /-- "OpenTag3D: RAW data length is too short" (line 330). -/
  | rawTooShort
  /-- "OpenTag3D: RAW data is not OpenTag3D format" (line 333). -/
  | rawNotOpenTag3D
  /-- "OpenTag3D: COLOR value must be 6 or 8 hex characters" (line 227). -/
  | invalidColor
  deriving DecidableEq, Repr

/-- ASCII upper-casing as applied by `str.upper()` to the validated hex
string (whose characters are all ASCII). -/
def asciiUpper (c : Char) : Char :=
  if 0x61 ≤ c.toNat ∧ c.toNat ≤ 0x7A then Char.ofNat (c.toNat - 0x20) else c

/-- `hex_value.startswith('#')` / `hex_value[1:]` (lines 222–223). -/
def stripHash : List Char → List Char
  | '#' :: rest => rest
  | l => l

/-- `OpenTag3DReader._parse_rgba_param` (line 218): `None` passes through;
otherwise strip, drop one leading `#`, extend a 6-character value with `FF`,
demand exactly 8 hex digits, and return the upper-cased `#RRGGBBAA` form. -/
def parse_rgba_param (value : Option String) : Except CommandError (Option String) :=
  match value with
  | none => Except.ok none
  | some v =>
    let hex1 := stripHash (pyStripChars v.data)
    let hex2 := if hex1.length = 6 then hex1 ++ ['F', 'F'] else hex1
    if hex2.length ≠ 8 ∨ ¬ (hex2.all isPyHexDigit = true) then
      Except.error CommandError.invalidColor
    else Except.ok (some (String.mk ('#' :: hex2.map asciiUpper)))

/-- The optional parameters of a `SET_OPENTAG3D_DATA` invocation, already
parsed to their value kinds by the G-code command layer (lines 325–360). -/
structure GCmdParams where
  raw : Option String := none
  tag_format : Option String := none
  tag_version : Option ℚ := none
  manufacturer : Option String := none
  base_material : Option String := none
  material_modifiers : Option String := none
  color_name : Option String := none
  diameter_um : Option ℤ := none
  weight_g : Option ℤ := none
  print_temp : Option ℚ := none
  bed_temp : Option ℚ := none
  density : Option ℚ := none
  online_url : Option String := none
  material : Option String := none
  color : Option String := none
  nozzle_temp : Option ℚ := none
  recommended_bed_temp : Option ℚ := none
  batch_id : Option String := none
  remaining : Option ℚ := none
  color_1 : Option String := none
  color_2 : Option String := none
  color_3 : Option String := none
  deriving DecidableEq, Repr

/-- `if val is not None: update_data[key] = val` (lines 367–369). -/
def overlayField {α : Type} (cur : Option α) (v : Option α) : Option α :=
  match v with
  | some x => some x
  | none => cur

/-- Overlay of the `manual_fields + manual_colors` list onto `update_data`
(lines 337–369): every parameter that was supplied replaces the decoded
value under its key. -/
def applyManual (u : UpdateSet) (p : GCmdParams) (c1 c2 c3 : Option String) :
    UpdateSet where
  tag_format := overlayField u.tag_format p.tag_format
  tag_version := overlayField u.tag_version p.tag_version
  filament_manufacturer := overlayField u.filament_manufacturer p.manufacturer
  base_material := overlayField u.base_material p.base_material
  material_modifiers := overlayField u.material_modifiers p.material_modifiers
  color_name := overlayField u.color_name p.color_name
  color_1_rgba := overlayField u.color_1_rgba c1
  color_2_rgba := overlayField u.color_2_rgba c2
  color_3_rgba := overlayField u.color_3_rgba c3
  target_diameter_um := overlayField u.target_diameter_um p.diameter_um
  target_weight_g := overlayField u.target_weight_g p.weight_g
  print_temperature := overlayField u.print_temperature p.print_temp
  bed_temperature := overlayField u.bed_temperature p.bed_temp
  density_g_cm3 := overlayField u.density_g_cm3 p.density
  online_data_url := overlayField u.online_data_url p.online_url
  filament_material := overlayField u.filament_material p.material
  filament_color := overlayField u.filament_color p.color
  recommended_nozzle_temp := overlayField u.recommended_nozzle_temp p.nozzle_temp
  recommended_bed_temp := overlayField u.recommended_bed_temp p.recommended_bed_temp
  batch_id := overlayField u.batch_id p.batch_id
  remaining_filament := overlayField u.remaining_filament p.remaining

/-- The raw-payload phase of `cmd_SET_OPENTAG3D_DATA` (lines 325–335): when
a non-empty `RAW` parameter was supplied, hex-parse and decode it, raising
on a failed decode or a `tag_format` other than "OT". -/
def rawUpdate (p : GCmdParams) : Except CommandError UpdateSet :=
  match p.raw with
  | some raw_hex =>
    if raw_hex = "" then Except.ok emptyUpdate
    else
      match parse_core_data (parse_raw_hex raw_hex) with
      | none => Except.error CommandError.rawTooShort
      | some parsed =>
        if parsed.tagFormat ≠ "OT" then Except.error CommandError.rawNotOpenTag3D
        else Except.ok parsed.toUpdateSet
  | none => Except.ok emptyUpdate

/-- Construction of `update_data` in `cmd_SET_OPENTAG3D_DATA` (lines
324–369): raw-payload phase, then RGBA validation of the three `COLOR_n`
parameters, then the manual overlay.  Any raise propagates. -/
def buildUpdateData (p : GCmdParams) : Except CommandError UpdateSet :=
  match rawUpdate p with
  | Except.error e => Except.error e
  | Except.ok u0 =>
    match parse_rgba_param p.color_1 with
    | Except.error e => Except.error e
    | Except.ok c1 =>
      match parse_rgba_param p.color_2 with
      | Except.error e => Except.error e
      | Except.ok c2 =>
        match parse_rgba_param p.color_3 with
        | Except.error e => Except.error e
        | Except.ok c3 => Except.ok (applyManual u0 p c1 c2 c3)

/-- `self.tag_data.update(tag_data)` in `OpenTag3D._tag_callback`: keys
present in the update set replace the state's values, all others keep
theirs. -/
def applyUpdate (st : TagState) (u : UpdateSet) : TagState where
  tag_format := u.tag_format.getD st.tag_format
  tag_version := u.tag_version.getD st.tag_version
  filament_manufacturer := u.filament_manufacturer.getD st.filament_manufacturer
  base_material := u.base_material.getD st.base_material
  material_modifiers := u.material_modifiers.getD st.material_modifiers
  color_name := u.color_name.getD st.color_name
  color_1_rgba := u.color_1_rgba.getD st.color_1_rgba
  color_2_rgba := u.color_2_rgba.getD st.color_2_rgba
  color_3_rgba := u.color_3_rgba.getD st.color_3_rgba
  target_diameter_um := u.target_diameter_um.getD st.target_diameter_um
  target_weight_g := u.target_weight_g.getD st.target_weight_g
  print_temperature := u.print_temperature.getD st.print_temperature
  bed_temperature := u.bed_temperature.getD st.bed_temperature
  density_g_cm3 := u.density_g_cm3.getD st.density_g_cm3
  online_data_url := u.online_data_url.getD st.online_data_url
  filament_material := u.filament_material.getD st.filament_material
  filament_color := u.filament_color.getD st.filament_color
  recommended_nozzle_temp := u.recommended_nozzle_temp.getD st.recommended_nozzle_temp
  recommended_bed_temp := u.recommended_bed_temp.getD st.recommended_bed_temp
  batch_id := u.batch_id.getD st.batch_id
  remaining_filament := u.remaining_filament.getD st.remaining_filament

/-- First clause of `OpenTag3D._derive_tag_fields` (lines 124–131):
combine `base_material` and `material_modifiers` into `filament_material`
when the latter is unset. -/
def deriveMaterial (st : TagState) : TagState :=
  if st.base_material ≠ "" ∧ st.filament_material = "" then
    if st.material_modifiers ≠ "" then
      { st with filament_material := st.base_material ++ " " ++ st.material_modifiers }
    else
      { st with filament_material := st.base_material }
  else st

/-- Second clause of `_derive_tag_fields` (lines 133–140): fill
`filament_color` from `color_name`, else from `color_1_rgba`. -/
def deriveColor (st : TagState) : TagState :=
  if st.filament_color = "" then
    if st.color_name ≠ "" then { st with filament_color := st.color_name }
    else if st.color_1_rgba ≠ "" then { st with filament_color := st.color_1_rgba }
    else st
  else st

/-- Third clause of `_derive_tag_fields` (lines 142–145). -/
def deriveNozzle (st : TagState) : TagState :=
  if st.recommended_nozzle_temp = 0 then
    if st.print_temperature ≠ 0 then
      { st with recommended_nozzle_temp := st.print_temperature }
    else st
  else st

/-- Fourth clause of `_derive_tag_fields` (lines 147–150). -/
def deriveBed (st : TagState) : TagState :=
  if st.recommended_bed_temp = 0 then
    if st.bed_temperature ≠ 0 then
      { st with recommended_bed_temp := st.bed_temperature }
    else st
  else st

/-- `OpenTag3D._derive_tag_fields` (line 123): the four fill-in clauses in
source order. -/
def derive_tag_fields (st : TagState) : TagState :=
  deriveBed (deriveNozzle (deriveColor (deriveMaterial st)))

/-- `OpenTag3D._tag_callback` (line 111) as a state transformer: apply the
update dictionary, then re-derive the convenience fields.  (Profile
application and template rendering act on external collaborators and do not
touch `tag_data`.) -/
def tag_callback (st : TagState) (u : UpdateSet) : TagState :=
  derive_tag_fields (applyUpdate st u)

/-- `OpenTag3DReader.cmd_SET_OPENTAG3D_DATA` (line 323) for a reader whose
callback is registered to an `OpenTag3D` instance holding state `st`.
Returns the raised error if any, the state after the call, and whether the
callback — and with it the on-update notification — ran. -/
def cmd_SET_OPENTAG3D_DATA (st : TagState) (p : GCmdParams) :
    Option CommandError × TagState × Bool :=
  match buildUpdateData p with
  | Except.error e => (some e, st, false)
  | Except.ok u =>
    if updateNonempty u then (none, tag_callback st u, true)
    else (none, st, false)

/-- The tag state held by the `OpenTag3D` instance after a
`SET_OPENTAG3D_DATA` invocation (unchanged when the command raised). -/
def stateAfter (st : TagState) (p : GCmdParams) : TagState :=
  (cmd_SET_OPENTAG3D_DATA st p).2.1

/-! ### Lemmas about the decoder -/

theorem parse_core_data_eq_none_iff (raw : List ℕ) :
    parse_core_data (some raw) = none ↔ raw.length < CORE_LENGTH := by
  have h1 : CORE_START_ADDR + CORE_LENGTH = 160 := by decide
  have h2 : CORE_LENGTH = 144 := by decide
  simp only [parse_core_data, baseOffset, h1, h2]
  split_ifs with ha hb <;> simp <;> omega

theorem parse_core_data_of_long (raw : List ℕ) (h : CORE_LENGTH ≤ raw.length) :
    ∃ off, baseOffset raw = some off ∧
      parse_core_data (some raw) = some (parseCore (readSlices (pySlice raw off))) ∧
      coreTagFormat raw =
        decode_string (pySlice raw off TAG_FORMAT_ADDR TAG_FORMAT_LEN) true := by
  simp only [parse_core_data, coreTagFormat, baseOffset]
  by_cases ha : CORE_START_ADDR + CORE_LENGTH ≤ raw.length
  · rw [if_pos ha]
    exact ⟨0, rfl, rfl, rfl⟩
  · rw [if_neg ha, if_pos h]
    exact ⟨-(CORE_START_ADDR : ℤ), rfl, rfl, rfl⟩

theorem parseCore_unknown (cs : CoreSlices) (tf : String)
    (htf : decode_string cs.tag_format true = tf)
    (hne : tf ≠ "") (hnot : tf ≠ "OT") :
    parseCore cs = DecodeResult.unknownFormat tf 0 := by
  unfold parseCore
  rw [htf, if_pos ⟨hne, hnot⟩]

theorem parseCore_unknown_inv (cs : CoreSlices) (tf : String) (tv : ℚ)
    (h : parseCore cs = DecodeResult.unknownFormat tf tv) :
    tf = decode_string cs.tag_format true ∧ tf ≠ "" ∧ tf ≠ "OT" ∧ tv = 0 := by
  simp only [parseCore] at h
  by_cases hc : decode_string cs.tag_format true ≠ "" ∧ decode_string cs.tag_format true ≠ "OT"
  · rw [if_pos hc] at h
    injection h with h1 h2
    exact ⟨h1.symm, h1 ▸ hc.1, h1 ▸ hc.2, h2.symm⟩
  · rw [if_neg hc] at h
    cases h

theorem parseCore_record_inv (cs : CoreSlices) (r : TagRecord)
    (h : parseCore cs = DecodeResult.record r) :
    r.tag_format = decode_string cs.tag_format true ∧
    (r.tag_format = "" ∨ r.tag_format = "OT") := by
  simp only [parseCore] at h
  by_cases hc : decode_string cs.tag_format true ≠ "" ∧ decode_string cs.tag_format true ≠ "OT"
  · rw [if_pos hc] at h
    cases h
  · rw [if_neg hc] at h
    injection h with h1
    subst h1
    refine ⟨rfl, ?_⟩
    by_cases he : decode_string cs.tag_format true = ""
    · exact Or.inl he
    · exact Or.inr (by_contra fun hot => hc ⟨he, hot⟩)

theorem parseCore_record_of_valid (cs : CoreSlices)
    (h : decode_string cs.tag_format true = "" ∨ decode_string cs.tag_format true = "OT") :
    ∃ r : TagRecord, parseCore cs = DecodeResult.record r ∧
      r.tag_format = decode_string cs.tag_format true := by
  have hc : ¬(decode_string cs.tag_format true ≠ "" ∧ decode_string cs.tag_format true ≠ "OT") := by
    rcases h with h | h
    · exact fun hc => hc.1 h
    · exact fun hc => hc.2 h
  simp only [parseCore]
  rw [if_neg hc]
  exact ⟨_, rfl, rfl⟩

theorem parse_core_data_unknown_inv (x : Option (List ℕ)) (tf : String) (tv : ℚ)
    (h : parse_core_data x = some (DecodeResult.unknownFormat tf tv)) :
    tf ≠ "" ∧ tf ≠ "OT" ∧ tv = 0 := by
  cases x with
  | none => cases h
  | some raw =>
    simp only [parse_core_data] at h
    cases hb : baseOffset raw with
    | none => rw [hb] at h; cases h
    | some off =>
      rw [hb] at h
      obtain ⟨-, h2, h3, h4⟩ := parseCore_unknown_inv _ _ _ (Option.some.inj h)
      exact ⟨h2, h3, h4⟩

/-! ### Lemmas about the merge command's control flow -/

theorem rawUpdate_tooShort (p : GCmdParams) (s : String) (hraw : p.raw = some s)
    (hne : s ≠ "") (h : parse_core_data (parse_raw_hex s) = none) :
    rawUpdate p = Except.error CommandError.rawTooShort := by
  simp only [rawUpdate, hraw, if_neg hne, h]

theorem rawUpdate_notFormat (p : GCmdParams) (s : String) (parsed : DecodeResult)
    (hraw : p.raw = some s) (hne : s ≠ "")
    (h : parse_core_data (parse_raw_hex s) = some parsed)
    (hof : parsed.tagFormat ≠ "OT") :
    rawUpdate p = Except.error CommandError.rawNotOpenTag3D := by
  simp only [rawUpdate, hraw, if_neg hne, h, if_pos hof]

theorem buildUpdateData_of_rawError (p : GCmdParams) (e : CommandError)
    (h : rawUpdate p = Except.error e) : buildUpdateData p = Except.error e := by
  simp only [buildUpdateData, h]

theorem cmd_of_buildError (st : TagState) (p : GCmdParams) (e : CommandError)
    (h : buildUpdateData p = Except.error e) :
    cmd_SET_OPENTAG3D_DATA st p = (some e, st, false) := by
  simp only [cmd_SET_OPENTAG3D_DATA, h]

/-- C6: a buffer strictly shorter than `CORE_LENGTH` — and only such a
buffer — fails to decode (the `TooShort` outcome, surfaced by the merge
command as the "RAW data length is too short" error); every buffer of
length at least `CORE_LENGTH` decodes to a `TagRecord` or an
`UnknownFormatRecord`, never to this failure. -/
theorem C6_too_short (raw : List ℕ) (hbytes : IsBytes raw) :
    (raw.length < CORE_LENGTH → parse_core_data (some raw) = none) ∧
    (CORE_LENGTH ≤ raw.length → ∃ res : DecodeResult,
      parse_core_data (some raw) = some res) ∧
    (∀ (st : TagState) (p : GCmdParams) (s : String),
      p.raw = some s → s ≠ "" → parse_raw_hex s = some raw →
      raw.length < CORE_LENGTH →
      cmd_SET_OPENTAG3D_DATA st p = (some CommandError.rawTooShort, st, false)) := by
  refine ⟨fun h => (parse_core_data_eq_none_iff raw).2 h, fun h => ?_, ?_⟩
  · obtain ⟨off, -, hp, -⟩ := parse_core_data_of_long raw h
    exact ⟨_, hp⟩
  · intro st p s hraw hne hhex hlen
    exact cmd_of_buildError st p _ (buildUpdateData_of_rawError p _
      (rawUpdate_tooShort p s hraw hne
        (by rw [hhex]; exact (parse_core_data_eq_none_iff raw).2 hlen)))

/-- Witness for C6: a 10-byte all-zero buffer fails to decode and makes the
merge command raise the too-short error, while a 144-byte buffer decodes. -/
theorem C6_too_short_witness :
    (List.replicate 10 0).length < CORE_LENGTH ∧
    parse_core_data (some (List.replicate 10 0)) = none ∧
    cmd_SET_OPENTAG3D_DATA initState { raw := some "00000000000000000000" } =
      (some CommandError.rawTooShort, initState, false) ∧
    (∃ res : DecodeResult,
      parse_core_data (some (0x4F :: 0x54 :: List.replicate 142 0)) = some res) := by
  refine ⟨by decide, ?_, ?_, ?_⟩
  · exact (C6_too_short (List.replicate 10 0) (by decide)).1 (by decide)
  · exact (C6_too_short (List.replicate 10 0) (by decide)).2.2 initState
      { raw := some "00000000000000000000" } "00000000000000000000" rfl (by decide)
      (by decide) (by decide)
  · exact (C6_too_short (0x4F :: 0x54 :: List.replicate 142 0) (by decide)).2.1 (by decide)

/-- C1: for a buffer of at least `CORE_LENGTH` bytes whose decoded
`tag_format` is non-empty and not "OT", decoding returns the
`UnknownFormatRecord` sentinel carrying that string and `tag_version = 0.0`
— never a full `TagRecord` — and no decoded `TagRecord` ever carries a
non-empty `tag_format` other than "OT". -/
theorem C1_unknown_format_sentinel (raw : List ℕ) (hbytes : IsBytes raw)
    (hlen : CORE_LENGTH ≤ raw.length)
    (hne : coreTagFormat raw ≠ "") (hnot : coreTagFormat raw ≠ "OT") :
    parse_core_data (some raw) =
      some (DecodeResult.unknownFormat (coreTagFormat raw) 0) ∧
    (∀ r : TagRecord, parse_core_data (some raw) ≠ some (DecodeResult.record r)) ∧
    (∀ (raw' : List ℕ) (r : TagRecord),
      parse_core_data (some raw') = some (DecodeResult.record r) →
      r.tag_format = "" ∨ r.tag_format = "OT") := by
  obtain ⟨off, -, hp, htf⟩ := parse_core_data_of_long raw hlen
  have hu : parseCore (readSlices (pySlice raw off)) =
      DecodeResult.unknownFormat (coreTagFormat raw) 0 :=
    parseCore_unknown _ _ htf.symm hne hnot
  refine ⟨by rw [hp, hu], ?_, ?_⟩
  · intro r hr
    rw [hp, hu] at hr
    exact DecodeResult.noConfusion (Option.some.inj hr)
  · intro raw' r hr
    by_cases hl : CORE_LENGTH ≤ raw'.length
    · obtain ⟨off', -, hp', -⟩ := parse_core_data_of_long raw' hl
      rw [hp'] at hr
      exact (parseCore_record_inv _ _ (Option.some.inj hr)).2
    · rw [(parse_core_data_eq_none_iff raw').2 (by omega)] at hr
      cases hr

/-! ### Layout equivalence (claim C2) -/

theorem pySlice_shift (pad b : List ℕ) (hp : pad.length = 16)
    (addr len : ℕ) (haddr : 16 ≤ addr) :
    pySlice (pad ++ b) 0 addr len = pySlice b (-16) addr len := by
  unfold pySlice
  have hl : (pad ++ b).length = 16 + b.length := by simp [hp]
  have hstart : ¬ ((addr : ℤ) + 0 < 0) := by omega
  have hstart' : ¬ ((addr : ℤ) + (-16) < 0) := by omega
  have hcond : ((addr : ℤ) + 0 + (len : ℤ) > ((pad ++ b).length : ℤ)) ↔
      ((addr : ℤ) + (-16) + (len : ℤ) > (b.length : ℤ)) := by
    rw [hl]; push_cast; omega
  by_cases hgt : (addr : ℤ) + 0 + (len : ℤ) > ((pad ++ b).length : ℤ)
  · rw [if_pos (Or.inr hgt), if_pos (Or.inr (hcond.1 hgt))]
  · rw [if_neg (by tauto), if_neg (by rw [hcond] at hgt; tauto)]
    have ht : ((addr : ℤ) + 0).toNat = pad.length + (addr - 16) := by omega
    have ht' : ((addr : ℤ) + (-16)).toNat = addr - 16 := by omega
    rw [ht, ht', List.drop_append_eq_append_drop]
    have : pad.drop (pad.length + (addr - 16)) = [] := by
      apply List.drop_eq_nil_of_le; omega
    rw [this]
    simp

theorem readSlices_congr (sl1 sl2 : ℕ → ℕ → List ℕ)
    (h : ∀ addr len, 16 ≤ addr → sl1 addr len = sl2 addr len) :
    readSlices sl1 = readSlices sl2 := by
  unfold readSlices
  congr 1 <;> exact h _ _ (by decide)

/-- C2: a buffer of exactly `CORE_LENGTH` bytes (offset-relative layout)
decodes identically to the same buffer preceded by 16 arbitrary padding
bytes (full-dump layout). -/
theorem C2_layout_equivalence (b : List ℕ) (hbytes : IsBytes b)
    (hb : b.length = CORE_LENGTH) (pad : List ℕ) (hpbytes : IsBytes pad)
    (hp : pad.length = 16) :
    parse_core_data (some (pad ++ b)) = parse_core_data (some b) := by
  have hb' : b.length = 144 := by rw [hb]; decide
  have hl : (pad ++ b).length = 160 := by simp [hp, hb']
  have hoff1 : baseOffset (pad ++ b) = some 0 := by
    unfold baseOffset
    rw [if_pos (by rw [hl]; decide)]
  have hoff2 : baseOffset b = some (-(CORE_START_ADDR : ℤ)) := by
    unfold baseOffset
    rw [if_neg (by rw [hb']; decide), if_pos (by rw [hb']; decide)]
  simp only [parse_core_data, hoff1, hoff2, Option.map]
  have hcs : readSlices (pySlice (pad ++ b) 0) =
      readSlices (pySlice b (-(CORE_START_ADDR : ℤ))) := by
    apply readSlices_congr
    intro addr len haddr
    exact pySlice_shift pad b hp addr len haddr
  rw [hcs]

/-- Witness for C2: a concrete 144-byte buffer against the same buffer
behind 16 bytes of 0xFF padding. -/
theorem C2_layout_equivalence_witness :
    IsBytes (0x4F :: 0x54 :: List.replicate 142 7) ∧
    (0x4F :: 0x54 :: List.replicate 142 7).length = CORE_LENGTH ∧
    IsBytes (List.replicate 16 0xFF) ∧
    (List.replicate 16 0xFF).length = 16 ∧
    parse_core_data (some (List.replicate 16 0xFF ++ (0x4F :: 0x54 :: List.replicate 142 7))) =
      parse_core_data (some (0x4F :: 0x54 :: List.replicate 142 7)) :=
  ⟨by decide, by decide, by decide, by decide,
   C2_layout_equivalence (0x4F :: 0x54 :: List.replicate 142 7) (by decide) (by decide)
     (List.replicate 16 0xFF) (by decide) (by decide)⟩

/-- Witness for C1: a 144-byte buffer whose first two bytes spell "XY"
decodes to `UnknownFormatRecord "XY"` with `tag_version = 0`. -/
theorem C1_unknown_format_sentinel_witness :
    IsBytes (0x58 :: 0x59 :: List.replicate 142 0) ∧
    CORE_LENGTH ≤ (0x58 :: 0x59 :: List.replicate 142 0).length ∧
    coreTagFormat (0x58 :: 0x59 :: List.replicate 142 0) = "XY" ∧
    parse_core_data (some (0x58 :: 0x59 :: List.replicate 142 0)) =
      some (DecodeResult.unknownFormat "XY" 0) := by
  refine ⟨by decide, by decide, by decide, ?_⟩
  have h := (C1_unknown_format_sentinel (0x58 :: 0x59 :: List.replicate 142 0)
    (by decide) (by decide) (by decide) (by decide)).1
  rwa [show coreTagFormat (0x58 :: 0x59 :: List.replicate 142 0) = "XY" by decide] at h

/-- C3: a merge invocation whose supplied raw payload fails to decode
aborts with the too-short error, and one whose payload decodes to the
foreign-format sentinel aborts with the not-OpenTag3D-format error; in both
cases the returned state equals the prior state and the callback never runs,
so manual overrides supplied in the same invocation are not applied. -/
theorem C3_atomic_failure (st : TagState) (p : GCmdParams) (s : String)
    (hraw : p.raw = some s) (hne : s ≠ "") :
    (parse_core_data (parse_raw_hex s) = none →
      cmd_SET_OPENTAG3D_DATA st p = (some CommandError.rawTooShort, st, false)) ∧
    (∀ (tf : String) (tv : ℚ),
      parse_core_data (parse_raw_hex s) = some (DecodeResult.unknownFormat tf tv) →
      cmd_SET_OPENTAG3D_DATA st p = (some CommandError.rawNotOpenTag3D, st, false)) := by
  constructor
  · intro h
    exact cmd_of_buildError st p _ (buildUpdateData_of_rawError p _
      (rawUpdate_tooShort p s hraw hne h))
  · intro tf tv h
    have hof : (DecodeResult.unknownFormat tf tv).tagFormat ≠ "OT" := by
      simpa [DecodeResult.tagFormat] using (parse_core_data_unknown_inv _ _ _ h).2.1
    exact cmd_of_buildError st p _ (buildUpdateData_of_rawError p _
      (rawUpdate_notFormat p s _ hraw hne h hof))

/-- Witness for C3: a 2-byte payload (too short) and an "XY"-format payload,
each supplied together with a manual `BASE_MATERIAL` override, abort with
their respective errors and leave the initial state untouched. -/
theorem C3_atomic_failure_witness :
    parse_core_data (parse_raw_hex "ABCD") = none ∧
    cmd_SET_OPENTAG3D_DATA initState
        { raw := some "ABCD", base_material := some "PLA" } =
      (some CommandError.rawTooShort, initState, false) ∧
    parse_core_data (parse_raw_hex (String.mk (['5', '8', '5', '9'] ++ List.replicate 284 '0'))) =
      some (DecodeResult.unknownFormat "XY" 0) ∧
    cmd_SET_OPENTAG3D_DATA initState
        { raw := some (String.mk (['5', '8', '5', '9'] ++ List.replicate 284 '0')),
          base_material := some "PLA" } =
      (some CommandError.rawNotOpenTag3D, initState, false) := by
  refine ⟨by decide, ?_, by decide, ?_⟩
  · exact (C3_atomic_failure initState
      { raw := some "ABCD", base_material := some "PLA" } "ABCD" rfl (by decide)).1
      (by decide)
  · exact (C3_atomic_failure initState
      { raw := some (String.mk (['5', '8', '5', '9'] ++ List.replicate 284 '0')),
        base_material := some "PLA" }
      (String.mk (['5', '8', '5', '9'] ++ List.replicate 284 '0')) rfl (by decide)).2
      "XY" 0 (by decide)

/-- C10: a buffer of at least `CORE_LENGTH` bytes whose `tag_format` field
decodes (after null- and whitespace-trimming) to the empty string yields a
full `TagRecord` with `tag_format = ""` — not the foreign-format sentinel —
yet a merge supplying such a payload still fails with the
not-OpenTag3D-format error, because acceptance requires `tag_format` to be
exactly "OT". -/
theorem C10_empty_format_record (st : TagState) (p : GCmdParams) (s : String)
    (raw : List ℕ) (hraw : p.raw = some s) (hne : s ≠ "")
    (hhex : parse_raw_hex s = some raw) (hlen : CORE_LENGTH ≤ raw.length)
    (htf : coreTagFormat raw = "") :
    (∃ r : TagRecord, parse_core_data (some raw) = some (DecodeResult.record r) ∧
      r.tag_format = "") ∧
    (∀ (tf : String) (tv : ℚ),
      parse_core_data (some raw) ≠ some (DecodeResult.unknownFormat tf tv)) ∧
    cmd_SET_OPENTAG3D_DATA st p = (some CommandError.rawNotOpenTag3D, st, false) := by
  obtain ⟨off, -, hp, htf'⟩ := parse_core_data_of_long raw hlen
  rw [htf] at htf'
  obtain ⟨r, hr, hrtf⟩ := parseCore_record_of_valid (readSlices (pySlice raw off))
    (Or.inl (show decode_string (readSlices (pySlice raw off)).tag_format true = ""
      from htf'.symm))
  have hr0 : r.tag_format = "" := by rw [hrtf]; exact htf'.symm
  refine ⟨⟨r, by rw [hp, hr], hr0⟩, ?_, ?_⟩
  · intro tf tv hcontra
    rw [hp, hr] at hcontra
    exact DecodeResult.noConfusion (Option.some.inj hcontra)
  · refine cmd_of_buildError st p _ (buildUpdateData_of_rawError p _ ?_)
    refine rawUpdate_notFormat p s (DecodeResult.record r) hraw hne
      (by rw [hhex, hp, hr]) ?_
    simp only [DecodeResult.tagFormat, hr0]
    decide

/-- Witness for C10: the all-zero 144-byte payload. -/
theorem C10_empty_format_record_witness :
    parse_raw_hex (String.mk (List.replicate 288 '0')) = some (List.replicate 144 0) ∧
    coreTagFormat (List.replicate 144 0) = "" ∧
    (∃ r : TagRecord,
      parse_core_data (some (List.replicate 144 0)) = some (DecodeResult.record r) ∧
      r.tag_format = "") ∧
    cmd_SET_OPENTAG3D_DATA initState { raw := some (String.mk (List.replicate 288 '0')) } =
      (some CommandError.rawNotOpenTag3D, initState, false) := by
  have h := C10_empty_format_record initState
    { raw := some (String.mk (List.replicate 288 '0')) }
    (String.mk (List.replicate 288 '0')) (List.replicate 144 0) rfl (by decide)
    (by decide) (by decide) (by decide)
  exact ⟨by decide, by decide, h.1, h.2.2⟩

/-- C9 (amended): the update notification — the reader callback running
`_tag_callback`, which renders and runs the update template — fires exactly
when a successful merge built a non-empty update set, whether or not any
supplied value differs from the value already held. -/
theorem C9_notify_on_nonempty_update (st : TagState) (p : GCmdParams)
    (u : UpdateSet) (h : buildUpdateData p = Except.ok u) :
    (cmd_SET_OPENTAG3D_DATA st p).1 = none ∧
    (cmd_SET_OPENTAG3D_DATA st p).2.2 = updateNonempty u := by
  simp only [cmd_SET_OPENTAG3D_DATA, h]
  cases hn : updateNonempty u <;> simp

/-- Witness for C9's amended statement. -/
theorem C9_notify_on_nonempty_update_witness :
    buildUpdateData { base_material := some "PLA" } =
      Except.ok ({ base_material := some "PLA" } : UpdateSet) ∧
    (cmd_SET_OPENTAG3D_DATA initState { base_material := some "PLA" }).2.2 =
      updateNonempty { base_material := some "PLA" } :=
  ⟨by with_unfolding_all decide,
   (C9_notify_on_nonempty_update initState { base_material := some "PLA" }
     { base_material := some "PLA" } (by with_unfolding_all decide)).2⟩

/-- C9 counterexample: merging `BASE_MATERIAL=PLA` into a state that already
holds exactly those values succeeds, changes no field — the resulting state
is the prior state — and still fires the notification (third component
`true`), contradicting "not emitted when every supplied value equals the
value already held". -/
theorem C9_counterexample :
    cmd_SET_OPENTAG3D_DATA
        { initState with base_material := "PLA", filament_material := "PLA" }
        { base_material := some "PLA" } =
      (none, { initState with base_material := "PLA", filament_material := "PLA" },
        true) := by
  with_unfolding_all decide

/-- C8 (amended): a raw payload that strips to empty or odd-length hex makes
`_parse_raw_hex` return `None`, and the merge then fails with the same
"RAW data length is too short" error a genuinely short payload produces —
there is no separate malformed-hex error kind; for even-length hex the
parser returns exactly the decoded bytes. -/
theorem C8_malformed_hex (s : String) :
    (parse_raw_hex s = none ↔
      (s.data.filter isPyHexDigit = [] ∨
        (s.data.filter isPyHexDigit).length % 2 = 1)) ∧
    (∀ bs : List ℕ, parse_raw_hex s = some bs →
      bs = hexPairsToBytes (s.data.filter isPyHexDigit)) ∧
    (∀ (st : TagState) (p : GCmdParams), p.raw = some s → s ≠ "" →
      parse_raw_hex s = none →
      cmd_SET_OPENTAG3D_DATA st p = (some CommandError.rawTooShort, st, false)) := by
  refine ⟨?_, ?_, ?_⟩
  · simp only [parse_raw_hex]
    split_ifs with hc
    · constructor
      · intro _
        rcases hc with hc | hc
        · exact Or.inl (List.length_eq_zero.1 hc)
        · exact Or.inr hc
      · intro _; rfl
    · constructor
      · intro h; cases h
      · intro hcontra
        exfalso
        apply hc
        rcases hcontra with h | h
        · exact Or.inl (by rw [h]; rfl)
        · exact Or.inr h
  · simp only [parse_raw_hex]
    split_ifs with hc
    · intro bs h; cases h
    · intro bs h; exact (Option.some.inj h).symm
  · intro st p hraw hne hhex0
    exact cmd_of_buildError st p _ (buildUpdateData_of_rawError p _
      (rawUpdate_tooShort p s hraw hne (by rw [hhex0]; rfl)))

/-- Witness for C8's amended statement at the odd-length payload "ABC". -/
theorem C8_malformed_hex_witness :
    parse_raw_hex "ABC" = none ∧
    cmd_SET_OPENTAG3D_DATA initState { raw := some "ABC" } =
      (some CommandError.rawTooShort, initState, false) :=
  ⟨(C8_malformed_hex "ABC").1.2 (Or.inr (by decide)),
   (C8_malformed_hex "ABC").2.2 initState { raw := some "ABC" } rfl (by decide)
     ((C8_malformed_hex "ABC").1.2 (Or.inr (by decide)))⟩

/-- C8 counterexample: the odd-length payload "ABC" and the well-formed but
too-short payload "00" raise the identical error — the claim's distinct
`MalformedHexPayload` error kind does not exist in the code. -/
theorem C8_counterexample :
    cmd_SET_OPENTAG3D_DATA initState { raw := some "ABC" } =
      (some CommandError.rawTooShort, initState, false) ∧
    cmd_SET_OPENTAG3D_DATA initState { raw := some "00" } =
      (some CommandError.rawTooShort, initState, false) := by
  constructor <;> with_unfolding_all decide

/-! ### Lemmas about derivation and update application -/

theorem deriveMaterial_eq (x : TagState) :
    deriveMaterial x = { x with filament_material :=
      if x.base_material ≠ "" ∧ x.filament_material = "" then
        (if x.material_modifiers ≠ "" then
          x.base_material ++ " " ++ x.material_modifiers
         else x.base_material)
      else x.filament_material } := by
  unfold deriveMaterial
  split_ifs <;> rfl

theorem deriveColor_eq (x : TagState) :
    deriveColor x = { x with filament_color :=
      if x.filament_color = "" then
        (if x.color_name ≠ "" then x.color_name
         else if x.color_1_rgba ≠ "" then x.color_1_rgba else x.filament_color)
      else x.filament_color } := by
  unfold deriveColor
  split_ifs <;> rfl

theorem deriveNozzle_eq (x : TagState) :
    deriveNozzle x = { x with recommended_nozzle_temp :=
      if x.recommended_nozzle_temp = 0 then
        (if x.print_temperature ≠ 0 then x.print_temperature
         else x.recommended_nozzle_temp)
      else x.recommended_nozzle_temp } := by
  unfold deriveNozzle
  split_ifs <;> rfl

theorem deriveBed_eq (x : TagState) :
    deriveBed x = { x with recommended_bed_temp :=
      if x.recommended_bed_temp = 0 then
        (if x.bed_temperature ≠ 0 then x.bed_temperature
         else x.recommended_bed_temp)
      else x.recommended_bed_temp } := by
  unfold deriveBed
  split_ifs <;> rfl

/-- The four derivation clauses touch exactly the four convenience fields,
each according to its fill-in rule over the incoming state. -/
theorem derive_tag_fields_eq (x : TagState) :
    derive_tag_fields x = { x with
      filament_material :=
        if x.base_material ≠ "" ∧ x.filament_material = "" then
          (if x.material_modifiers ≠ "" then
            x.base_material ++ " " ++ x.material_modifiers
           else x.base_material)
        else x.filament_material,
      filament_color :=
        if x.filament_color = "" then
          (if x.color_name ≠ "" then x.color_name
           else if x.color_1_rgba ≠ "" then x.color_1_rgba else x.filament_color)
        else x.filament_color,
      recommended_nozzle_temp :=
        if x.recommended_nozzle_temp = 0 then
          (if x.print_temperature ≠ 0 then x.print_temperature
           else x.recommended_nozzle_temp)
        else x.recommended_nozzle_temp,
      recommended_bed_temp :=
        if x.recommended_bed_temp = 0 then
          (if x.bed_temperature ≠ 0 then x.bed_temperature
           else x.recommended_bed_temp)
        else x.recommended_bed_temp } := by
  rw [derive_tag_fields, deriveMaterial_eq, deriveColor_eq, deriveNozzle_eq, deriveBed_eq]

theorem opt_none_of_isSome_false {α : Type} (o : Option α) (h : o.isSome = false) :
    o = none := by
  cases o with
  | none => rfl
  | some a => simp at h

theorem applyUpdate_of_not_nonempty (st : TagState) (u : UpdateSet)
    (h : updateNonempty u = false) : applyUpdate st u = st := by
  simp only [updateNonempty, Bool.or_eq_false_iff] at h
  obtain ⟨⟨⟨⟨⟨⟨⟨⟨⟨⟨⟨⟨⟨⟨⟨⟨⟨⟨⟨⟨h1, h2⟩, h3⟩, h4⟩, h5⟩, h6⟩, h7⟩, h8⟩, h9⟩, h10⟩, h11⟩, h12⟩, h13⟩, h14⟩, h15⟩, h16⟩, h17⟩, h18⟩, h19⟩, h20⟩, h21⟩ := h
  simp only [applyUpdate, opt_none_of_isSome_false _ h1, opt_none_of_isSome_false _ h2,
    opt_none_of_isSome_false _ h3, opt_none_of_isSome_false _ h4,
    opt_none_of_isSome_false _ h5, opt_none_of_isSome_false _ h6,
    opt_none_of_isSome_false _ h7, opt_none_of_isSome_false _ h8,
    opt_none_of_isSome_false _ h9, opt_none_of_isSome_false _ h10,
    opt_none_of_isSome_false _ h11, opt_none_of_isSome_false _ h12,
    opt_none_of_isSome_false _ h13, opt_none_of_isSome_false _ h14,
    opt_none_of_isSome_false _ h15, opt_none_of_isSome_false _ h16,
    opt_none_of_isSome_false _ h17, opt_none_of_isSome_false _ h18,
    opt_none_of_isSome_false _ h19, opt_none_of_isSome_false _ h20,
    opt_none_of_isSome_false _ h21, Option.getD_none]

theorem buildUpdateData_ok_inv (p : GCmdParams) (u : UpdateSet)
    (h : buildUpdateData p = Except.ok u) :
    ∃ u0 c1 c2 c3, rawUpdate p = Except.ok u0 ∧
      parse_rgba_param p.color_1 = Except.ok c1 ∧
      parse_rgba_param p.color_2 = Except.ok c2 ∧
      parse_rgba_param p.color_3 = Except.ok c3 ∧
      u = applyManual u0 p c1 c2 c3 := by
  unfold buildUpdateData at h
  cases h0 : rawUpdate p with
  | error e => simp only [h0] at h; cases h
  | ok u0 =>
    simp only [h0] at h
    cases h1 : parse_rgba_param p.color_1 with
    | error e => simp only [h1] at h; cases h
    | ok c1 =>
      simp only [h1] at h
      cases h2 : parse_rgba_param p.color_2 with
      | error e => simp only [h2] at h; cases h
      | ok c2 =>
        simp only [h2] at h
        cases h3 : parse_rgba_param p.color_3 with
        | error e => simp only [h3] at h; cases h
        | ok c3 =>
          simp only [h3] at h
          exact ⟨u0, c1, c2, c3, rfl, rfl, rfl, rfl, (Except.ok.inj h).symm⟩

theorem cmd_of_ok_nonempty (st : TagState) (p : GCmdParams) (u : UpdateSet)
    (h : buildUpdateData p = Except.ok u) (hn : updateNonempty u = true) :
    cmd_SET_OPENTAG3D_DATA st p =
      (none, derive_tag_fields (applyUpdate st u), true) := by
  simp only [cmd_SET_OPENTAG3D_DATA, tag_callback, h, hn, if_true]

/-- On a derivation-stable prior state (every state the module ever holds is
one: the initial state vacuously, and every later state as the output of
`_derive_tag_fields`), a successful merge leaves the state at "derive after
apply", whether or not the callback ran. -/
theorem stateAfter_eq_derive (st : TagState) (p : GCmdParams) (u : UpdateSet)
    (h : buildUpdateData p = Except.ok u) (hst : derive_tag_fields st = st) :
    stateAfter st p = derive_tag_fields (applyUpdate st u) := by
  unfold stateAfter
  cases hn : updateNonempty u with
  | false =>
    rw [applyUpdate_of_not_nonempty st u hn, hst]
    simp only [cmd_SET_OPENTAG3D_DATA, h, hn]
    rfl
  | true => rw [cmd_of_ok_nonempty st p u h hn]

/-- C4 (amended): within a single successful merge, every manual override
replaces the value decoded from the raw payload under the same key, and the
manual value is what ends up in the merged state — except that an
empty/zero manual value for one of the four derived convenience fields may
be overwritten by re-derivation, and a manual RGBA color lands in its
validated normalized form.  In particular the CustomBlend example holds. -/
theorem C4_manual_override_precedence (st : TagState) (p : GCmdParams)
    (u : UpdateSet) (h : buildUpdateData p = Except.ok u) :
    (∀ v, p.tag_format = some v → (stateAfter st p).tag_format = v) ∧
    (∀ v, p.tag_version = some v → (stateAfter st p).tag_version = v) ∧
    (∀ v, p.manufacturer = some v → (stateAfter st p).filament_manufacturer = v) ∧
    (∀ v, p.base_material = some v → (stateAfter st p).base_material = v) ∧
    (∀ v, p.material_modifiers = some v → (stateAfter st p).material_modifiers = v) ∧
    (∀ v, p.color_name = some v → (stateAfter st p).color_name = v) ∧
    (∀ v, p.diameter_um = some v → (stateAfter st p).target_diameter_um = v) ∧
    (∀ v, p.weight_g = some v → (stateAfter st p).target_weight_g = v) ∧
    (∀ v, p.print_temp = some v → (stateAfter st p).print_temperature = v) ∧
    (∀ v, p.bed_temp = some v → (stateAfter st p).bed_temperature = v) ∧
    (∀ v, p.density = some v → (stateAfter st p).density_g_cm3 = v) ∧
    (∀ v, p.online_url = some v → (stateAfter st p).online_data_url = v) ∧
    (∀ v, p.batch_id = some v → (stateAfter st p).batch_id = v) ∧
    (∀ v, p.remaining = some v → (stateAfter st p).remaining_filament = v) ∧
    (∀ w, parse_rgba_param p.color_1 = Except.ok (some w) → (stateAfter st p).color_1_rgba = w) ∧
    (∀ w, parse_rgba_param p.color_2 = Except.ok (some w) → (stateAfter st p).color_2_rgba = w) ∧
    (∀ w, parse_rgba_param p.color_3 = Except.ok (some w) → (stateAfter st p).color_3_rgba = w) ∧
    (∀ v, p.material = some v → v ≠ "" → (stateAfter st p).filament_material = v) ∧
    (∀ v, p.color = some v → v ≠ "" → (stateAfter st p).filament_color = v) ∧
    (∀ v, p.nozzle_temp = some v → v ≠ 0 → (stateAfter st p).recommended_nozzle_temp = v) ∧
    (∀ v, p.recommended_bed_temp = some v → v ≠ 0 → (stateAfter st p).recommended_bed_temp = v) ∧
    (stateAfter initState { material := some "CustomBlend", base_material := some "PLA" }).filament_material = "CustomBlend" := by
  obtain ⟨u0, c1, c2, c3, h0, h1, h2, h3, hu⟩ := buildUpdateData_ok_inv p u h
  subst hu
  refine ⟨?_, ?_, ?_, ?_, ?_, ?_, ?_, ?_, ?_, ?_, ?_, ?_, ?_, ?_, ?_, ?_, ?_, ?_, ?_, ?_, ?_, ?_⟩
  · intro v hv
    have hn : updateNonempty (applyManual u0 p c1 c2 c3) = true := by
      simp [updateNonempty, applyManual, overlayField, hv]
    unfold stateAfter
    rw [cmd_of_ok_nonempty st p _ h hn]
    simp [derive_tag_fields_eq, applyUpdate, applyManual, overlayField, hv]
  · intro v hv
    have hn : updateNonempty (applyManual u0 p c1 c2 c3) = true := by
      simp [updateNonempty, applyManual, overlayField, hv]
    unfold stateAfter
    rw [cmd_of_ok_nonempty st p _ h hn]
    simp [derive_tag_fields_eq, applyUpdate, applyManual, overlayField, hv]
  · intro v hv
    have hn : updateNonempty (applyManual u0 p c1 c2 c3) = true := by
      simp [updateNonempty, applyManual, overlayField, hv]
    unfold stateAfter
    rw [cmd_of_ok_nonempty st p _ h hn]
    simp [derive_tag_fields_eq, applyUpdate, applyManual, overlayField, hv]
  · intro v hv
    have hn : updateNonempty (applyManual u0 p c1 c2 c3) = true := by
      simp [updateNonempty, applyManual, overlayField, hv]
    unfold stateAfter
    rw [cmd_of_ok_nonempty st p _ h hn]
    simp [derive_tag_fields_eq, applyUpdate, applyManual, overlayField, hv]
  · intro v hv
    have hn : updateNonempty (applyManual u0 p c1 c2 c3) = true := by
      simp [updateNonempty, applyManual, overlayField, hv]
    unfold stateAfter
    rw [cmd_of_ok_nonempty st p _ h hn]
    simp [derive_tag_fields_eq, applyUpdate, applyManual, overlayField, hv]
  · intro v hv
    have hn : updateNonempty (applyManual u0 p c1 c2 c3) = true := by
      simp [updateNonempty, applyManual, overlayField, hv]
    unfold stateAfter
    rw [cmd_of_ok_nonempty st p _ h hn]
    simp [derive_tag_fields_eq, applyUpdate, applyManual, overlayField, hv]
  · intro v hv
    have hn : updateNonempty (applyManual u0 p c1 c2 c3) = true := by
      simp [updateNonempty, applyManual, overlayField, hv]
    unfold stateAfter
    rw [cmd_of_ok_nonempty st p _ h hn]
    simp [derive_tag_fields_eq, applyUpdate, applyManual, overlayField, hv]
  · intro v hv
    have hn : updateNonempty (applyManual u0 p c1 c2 c3) = true := by
      simp [updateNonempty, applyManual, overlayField, hv]
    unfold stateAfter
    rw [cmd_of_ok_nonempty st p _ h hn]
    simp [derive_tag_fields_eq, applyUpdate, applyManual, overlayField, hv]
  · intro v hv
    have hn : updateNonempty (applyManual u0 p c1 c2 c3) = true := by
      simp [updateNonempty, applyManual, overlayField, hv]
    unfold stateAfter
    rw [cmd_of_ok_nonempty st p _ h hn]
    simp [derive_tag_fields_eq, applyUpdate, applyManual, overlayField, hv]
  · intro v hv
    have hn : updateNonempty (applyManual u0 p c1 c2 c3) = true := by
      simp [updateNonempty, applyManual, overlayField, hv]
    unfold stateAfter
    rw [cmd_of_ok_nonempty st p _ h hn]
    simp [derive_tag_fields_eq, applyUpdate, applyManual, overlayField, hv]
  · intro v hv
    have hn : updateNonempty (applyManual u0 p c1 c2 c3) = true := by
      simp [updateNonempty, applyManual, overlayField, hv]
    unfold stateAfter
    rw [cmd_of_ok_nonempty st p _ h hn]
    simp [derive_tag_fields_eq, applyUpdate, applyManual, overlayField, hv]
  · intro v hv
    have hn : updateNonempty (applyManual u0 p c1 c2 c3) = true := by
      simp [updateNonempty, applyManual, overlayField, hv]
    unfold stateAfter
    rw [cmd_of_ok_nonempty st p _ h hn]
    simp [derive_tag_fields_eq, applyUpdate, applyManual, overlayField, hv]
  · intro v hv
    have hn : updateNonempty (applyManual u0 p c1 c2 c3) = true := by
      simp [updateNonempty, applyManual, overlayField, hv]
    unfold stateAfter
    rw [cmd_of_ok_nonempty st p _ h hn]
    simp [derive_tag_fields_eq, applyUpdate, applyManual, overlayField, hv]
  · intro v hv
    have hn : updateNonempty (applyManual u0 p c1 c2 c3) = true := by
      simp [updateNonempty, applyManual, overlayField, hv]
    unfold stateAfter
    rw [cmd_of_ok_nonempty st p _ h hn]
    simp [derive_tag_fields_eq, applyUpdate, applyManual, overlayField, hv]
  · intro w hv
    have hceq : c1 = some w := Except.ok.inj (h1.symm.trans hv)
    have hn : updateNonempty (applyManual u0 p c1 c2 c3) = true := by
      simp [updateNonempty, applyManual, overlayField, hceq]
    unfold stateAfter
    rw [cmd_of_ok_nonempty st p _ h hn]
    simp [derive_tag_fields_eq, applyUpdate, applyManual, overlayField, hceq]
  · intro w hv
    have hceq : c2 = some w := Except.ok.inj (h2.symm.trans hv)
    have hn : updateNonempty (applyManual u0 p c1 c2 c3) = true := by
      simp [updateNonempty, applyManual, overlayField, hceq]
    unfold stateAfter
    rw [cmd_of_ok_nonempty st p _ h hn]
    simp [derive_tag_fields_eq, applyUpdate, applyManual, overlayField, hceq]
  · intro w hv
    have hceq : c3 = some w := Except.ok.inj (h3.symm.trans hv)
    have hn : updateNonempty (applyManual u0 p c1 c2 c3) = true := by
      simp [updateNonempty, applyManual, overlayField, hceq]
    unfold stateAfter
    rw [cmd_of_ok_nonempty st p _ h hn]
    simp [derive_tag_fields_eq, applyUpdate, applyManual, overlayField, hceq]
  · intro v hv hv0
    have hn : updateNonempty (applyManual u0 p c1 c2 c3) = true := by
      simp [updateNonempty, applyManual, overlayField, hv]
    unfold stateAfter
    rw [cmd_of_ok_nonempty st p _ h hn]
    simp [derive_tag_fields_eq, applyUpdate, applyManual, overlayField, hv, hv0]
  · intro v hv hv0
    have hn : updateNonempty (applyManual u0 p c1 c2 c3) = true := by
      simp [updateNonempty, applyManual, overlayField, hv]
    unfold stateAfter
    rw [cmd_of_ok_nonempty st p _ h hn]
    simp [derive_tag_fields_eq, applyUpdate, applyManual, overlayField, hv, hv0]
  · intro v hv hv0
    have hn : updateNonempty (applyManual u0 p c1 c2 c3) = true := by
      simp [updateNonempty, applyManual, overlayField, hv]
    unfold stateAfter
    rw [cmd_of_ok_nonempty st p _ h hn]
    simp [derive_tag_fields_eq, applyUpdate, applyManual, overlayField, hv, hv0]
  · intro v hv hv0
    have hn : updateNonempty (applyManual u0 p c1 c2 c3) = true := by
      simp [updateNonempty, applyManual, overlayField, hv]
    unfold stateAfter
    rw [cmd_of_ok_nonempty st p _ h hn]
    simp [derive_tag_fields_eq, applyUpdate, applyManual, overlayField, hv, hv0]
  · with_unfolding_all decide

/-- The raw payload of C4's counterexample: 144 bytes in offset-relative
layout, format "OT", print-temperature byte 0x32 (= 50, decoding to 250 °C)
at address 0x5E, everything else zero. -/
def c4RawHex : String :=
  String.mk (['4', 'F', '5', '4'] ++ List.replicate 152 '0' ++ ['3', '2'] ++
    List.replicate 130 '0')

/-- C4 counterexample: supplying the manual override `NOZZLE_TEMP=0`
together with a raw payload whose decoded `print_temperature` is 250 yields
`recommended_nozzle_temp = 250` — re-derivation overwrites the zero manual
value with the value derived from the same call's payload, so the manual
value is not what ends up in the merged state. -/
theorem C4_counterexample :
    ({ raw := some c4RawHex, nozzle_temp := some 0 } : GCmdParams).nozzle_temp =
      some 0 ∧
    (cmd_SET_OPENTAG3D_DATA initState
      { raw := some c4RawHex, nozzle_temp := some 0 }).1 = none ∧
    (stateAfter initState
      { raw := some c4RawHex, nozzle_temp := some 0 }).recommended_nozzle_temp =
      250 ∧
    (250 : ℚ) ≠ 0 := by
  refine ⟨rfl, ?_, ?_, by norm_num⟩
  · with_unfolding_all decide
  · with_unfolding_all decide

/-- Witness for C4's amended statement: the CustomBlend merge, applied
through the theorem. -/
theorem C4_manual_override_precedence_witness :
    buildUpdateData { material := some "CustomBlend", base_material := some "PLA" } =
      Except.ok
        ({ base_material := some "PLA", filament_material := some "CustomBlend" } :
          UpdateSet) ∧
    ("CustomBlend" : String) ≠ "" ∧
    (stateAfter initState
      { material := some "CustomBlend", base_material := some "PLA" }).filament_material =
      "CustomBlend" := by
  refine ⟨by with_unfolding_all decide, by decide, ?_⟩
  exact (C4_manual_override_precedence initState
    { material := some "CustomBlend", base_material := some "PLA" }
    { base_material := some "PLA", filament_material := some "CustomBlend" }
    (by with_unfolding_all decide)).2.2.2.2.2.2.2.2.2.2.2.2.2.2.2.2.2.1
    "CustomBlend" rfl (by decide)

/-- C7: after a successful merge onto a derivation-stable prior state
(which every state the module holds is), every key absent from the call's
update set keeps its prior value, except that a convenience field that is
absent from the update set and currently empty/zero is filled by re-running
derivation on the updated state; in particular the PLA / PLA Matte examples
hold. -/
theorem C7_frame_and_refresh (st : TagState) (p : GCmdParams) (u : UpdateSet)
    (h : buildUpdateData p = Except.ok u)
    (hst : derive_tag_fields st = st) :
    (u.tag_format = none → (stateAfter st p).tag_format = st.tag_format) ∧
    (u.tag_version = none → (stateAfter st p).tag_version = st.tag_version) ∧
    (u.filament_manufacturer = none → (stateAfter st p).filament_manufacturer = st.filament_manufacturer) ∧
    (u.base_material = none → (stateAfter st p).base_material = st.base_material) ∧
    (u.material_modifiers = none → (stateAfter st p).material_modifiers = st.material_modifiers) ∧
    (u.color_name = none → (stateAfter st p).color_name = st.color_name) ∧
    (u.color_1_rgba = none → (stateAfter st p).color_1_rgba = st.color_1_rgba) ∧
    (u.color_2_rgba = none → (stateAfter st p).color_2_rgba = st.color_2_rgba) ∧
    (u.color_3_rgba = none → (stateAfter st p).color_3_rgba = st.color_3_rgba) ∧
    (u.target_diameter_um = none → (stateAfter st p).target_diameter_um = st.target_diameter_um) ∧
    (u.target_weight_g = none → (stateAfter st p).target_weight_g = st.target_weight_g) ∧
    (u.print_temperature = none → (stateAfter st p).print_temperature = st.print_temperature) ∧
    (u.bed_temperature = none → (stateAfter st p).bed_temperature = st.bed_temperature) ∧
    (u.density_g_cm3 = none → (stateAfter st p).density_g_cm3 = st.density_g_cm3) ∧
    (u.online_data_url = none → (stateAfter st p).online_data_url = st.online_data_url) ∧
    (u.batch_id = none → (stateAfter st p).batch_id = st.batch_id) ∧
    (u.remaining_filament = none → (stateAfter st p).remaining_filament = st.remaining_filament) ∧
    (u.filament_material = none → st.filament_material ≠ "" →
      (stateAfter st p).filament_material = st.filament_material) ∧
    (u.filament_material = none → st.filament_material = "" →
      (stateAfter st p).filament_material =
        (if (applyUpdate st u).base_material ≠ "" then
          (if (applyUpdate st u).material_modifiers ≠ "" then
            (applyUpdate st u).base_material ++ " " ++ (applyUpdate st u).material_modifiers
           else (applyUpdate st u).base_material)
         else "")) ∧
    (u.filament_color = none → st.filament_color ≠ "" →
      (stateAfter st p).filament_color = st.filament_color) ∧
    (u.filament_color = none → st.filament_color = "" →
      (stateAfter st p).filament_color =
        (if (applyUpdate st u).color_name ≠ "" then (applyUpdate st u).color_name else (applyUpdate st u).color_1_rgba)) ∧
    (u.recommended_nozzle_temp = none → st.recommended_nozzle_temp ≠ 0 →
      (stateAfter st p).recommended_nozzle_temp = st.recommended_nozzle_temp) ∧
    (u.recommended_nozzle_temp = none → st.recommended_nozzle_temp = 0 →
      (stateAfter st p).recommended_nozzle_temp = (applyUpdate st u).print_temperature) ∧
    (u.recommended_bed_temp = none → st.recommended_bed_temp ≠ 0 →
      (stateAfter st p).recommended_bed_temp = st.recommended_bed_temp) ∧
    (u.recommended_bed_temp = none → st.recommended_bed_temp = 0 →
      (stateAfter st p).recommended_bed_temp = (applyUpdate st u).bed_temperature) ∧
    (stateAfter initState { base_material := some "PLA" }).filament_material = "PLA" ∧
    (stateAfter initState
      { base_material := some "PLA", material_modifiers := some "Matte" }).filament_material =
      "PLA Matte" := by
  have hfin : stateAfter st p = derive_tag_fields (applyUpdate st u) :=
    stateAfter_eq_derive st p u h hst
  refine ⟨?_, ?_, ?_, ?_, ?_, ?_, ?_, ?_, ?_, ?_, ?_, ?_, ?_, ?_, ?_, ?_, ?_, ?_, ?_, ?_, ?_, ?_, ?_, ?_, ?_, ?_, ?_⟩
  · intro hf
    rw [hfin, derive_tag_fields_eq]
    simp [applyUpdate, hf]
  · intro hf
    rw [hfin, derive_tag_fields_eq]
    simp [applyUpdate, hf]
  · intro hf
    rw [hfin, derive_tag_fields_eq]
    simp [applyUpdate, hf]
  · intro hf
    rw [hfin, derive_tag_fields_eq]
    simp [applyUpdate, hf]
  · intro hf
    rw [hfin, derive_tag_fields_eq]
    simp [applyUpdate, hf]
  · intro hf
    rw [hfin, derive_tag_fields_eq]
    simp [applyUpdate, hf]
  · intro hf
    rw [hfin, derive_tag_fields_eq]
    simp [applyUpdate, hf]
  · intro hf
    rw [hfin, derive_tag_fields_eq]
    simp [applyUpdate, hf]
  · intro hf
    rw [hfin, derive_tag_fields_eq]
    simp [applyUpdate, hf]
  · intro hf
    rw [hfin, derive_tag_fields_eq]
    simp [applyUpdate, hf]
  · intro hf
    rw [hfin, derive_tag_fields_eq]
    simp [applyUpdate, hf]
  · intro hf
    rw [hfin, derive_tag_fields_eq]
    simp [applyUpdate, hf]
  · intro hf
    rw [hfin, derive_tag_fields_eq]
    simp [applyUpdate, hf]
  · intro hf
    rw [hfin, derive_tag_fields_eq]
    simp [applyUpdate, hf]
  · intro hf
    rw [hfin, derive_tag_fields_eq]
    simp [applyUpdate, hf]
  · intro hf
    rw [hfin, derive_tag_fields_eq]
    simp [applyUpdate, hf]
  · intro hf
    rw [hfin, derive_tag_fields_eq]
    simp [applyUpdate, hf]
  · intro hf he
    rw [hfin, derive_tag_fields_eq]
    simp [applyUpdate, hf, he]
  · intro hf he
    rw [hfin, derive_tag_fields_eq]
    simp [applyUpdate, hf, he]
  · intro hf he
    rw [hfin, derive_tag_fields_eq]
    simp [applyUpdate, hf, he]
  · intro hf he
    rw [hfin, derive_tag_fields_eq]
    simp [applyUpdate, hf, he]
    split_ifs with hcn hc1
    · exact hc1.symm
    · rfl
    · rfl
  · intro hf he
    rw [hfin, derive_tag_fields_eq]
    simp [applyUpdate, hf, he]
  · intro hf he
    rw [hfin, derive_tag_fields_eq]
    simp [applyUpdate, hf, he]
    exact fun hp => hp.symm
  · intro hf he
    rw [hfin, derive_tag_fields_eq]
    simp [applyUpdate, hf, he]
  · intro hf he
    rw [hfin, derive_tag_fields_eq]
    simp [applyUpdate, hf, he]
    exact fun hp => hp.symm
  · with_unfolding_all decide
  · with_unfolding_all decide

/-- Witness for C7 at the merge of `BASE_MATERIAL=PLA` into the initial
state. -/
theorem C7_frame_and_refresh_witness :
    buildUpdateData { base_material := some "PLA" } =
      Except.ok ({ base_material := some "PLA" } : UpdateSet) ∧
    derive_tag_fields initState = initState ∧
    (stateAfter initState { base_material := some "PLA" }).batch_id =
      initState.batch_id := by
  refine ⟨by with_unfolding_all decide, by with_unfolding_all decide, ?_⟩
  exact (C7_frame_and_refresh initState { base_material := some "PLA" }
    { base_material := some "PLA" } (by with_unfolding_all decide)
    (by with_unfolding_all decide)).2.2.2.2.2.2.2.2.2.2.2.2.2.2.2.1 rfl

/-- C5: `_parse_rgba_param` accepts an optional leading '#', requires the
remainder (after stripping surrounding whitespace) to be exactly 6 or 8 hex
digits, extends a 6-digit value with an implicit "FF" alpha, fails with the
invalid-color error on any other length or non-hex content, and always
returns the normalized upper-case "#RRGGBBAA" form; concretely "FF8800"
maps to "#FF8800FF", "#aa00ff11" maps to "#AA00FF11", and "12345" fails. -/
theorem C5_parse_rgba (s : String) :
    (((stripHash (pyStripChars s.data)).length = 6 ∨
        (stripHash (pyStripChars s.data)).length = 8) ∧
      (stripHash (pyStripChars s.data)).all isPyHexDigit = true →
      parse_rgba_param (some s) = Except.ok (some (String.mk ('#' ::
        (if (stripHash (pyStripChars s.data)).length = 6
         then stripHash (pyStripChars s.data) ++ ['F', 'F']
         else stripHash (pyStripChars s.data)).map asciiUpper)))) ∧
    (¬ (((stripHash (pyStripChars s.data)).length = 6 ∨
        (stripHash (pyStripChars s.data)).length = 8) ∧
      (stripHash (pyStripChars s.data)).all isPyHexDigit = true) →
      parse_rgba_param (some s) = Except.error CommandError.invalidColor) ∧
    parse_rgba_param (some "FF8800") = Except.ok (some "#FF8800FF") ∧
    parse_rgba_param (some "#aa00ff11") = Except.ok (some "#AA00FF11") ∧
    parse_rgba_param (some "12345") = Except.error CommandError.invalidColor := by
  have hFF : (['F', 'F'] : List Char).all isPyHexDigit = true := by decide
  refine ⟨?_, ?_, by with_unfolding_all decide, by with_unfolding_all decide,
    by with_unfolding_all decide⟩
  · rintro ⟨hlen, hhex⟩
    rcases hlen with h6 | h8
    · simp [parse_rgba_param, h6, hhex, List.length_append, List.all_append, hFF]
    · have h6 : ¬ ((stripHash (pyStripChars s.data)).length = 6) := by omega
      simp [parse_rgba_param, h6, h8, hhex]
  · intro hno
    by_cases h6 : (stripHash (pyStripChars s.data)).length = 6
    · have hB : ¬ ((stripHash (pyStripChars s.data)).all isPyHexDigit = true) :=
        fun hB => hno ⟨Or.inl h6, hB⟩
      have hBf : (stripHash (pyStripChars s.data)).all isPyHexDigit = false :=
        Bool.not_eq_true _ |>.mp hB
      simp [parse_rgba_param, h6, hBf, List.length_append, List.all_append]
    · by_cases h8 : (stripHash (pyStripChars s.data)).length = 8
      · have hB : ¬ ((stripHash (pyStripChars s.data)).all isPyHexDigit = true) :=
          fun hB => hno ⟨Or.inr h8, hB⟩
        have hBf : (stripHash (pyStripChars s.data)).all isPyHexDigit = false :=
          Bool.not_eq_true _ |>.mp hB
        simp [parse_rgba_param, h6, h8, hBf]
      · simp [parse_rgba_param, h6, h8]

/-- Witness for C5: the theorem applied at "FF8800" (success branch, with
the implicit alpha extension) and "12345" (failure branch). -/
theorem C5_parse_rgba_witness :
    parse_rgba_param (some "FF8800") = Except.ok (some (String.mk ('#' ::
      (if (stripHash (pyStripChars ("FF8800" : String).data)).length = 6
       then stripHash (pyStripChars ("FF8800" : String).data) ++ ['F', 'F']
       else stripHash (pyStripChars ("FF8800" : String).data)).map asciiUpper))) ∧
    parse_rgba_param (some "12345") = Except.error CommandError.invalidColor :=
  ⟨(C5_parse_rgba "FF8800").1 (by decide), (C5_parse_rgba "12345").2.1 (by decide)⟩

/-! ### Derivation stability: every state the module holds is a fixed point
of `_derive_tag_fields` (the initial state trivially, every merge result by
idempotence), which justifies the stability hypothesis of the frame
theorem. -/

theorem string_append_ne_empty (a b : String) (ha : a ≠ "") : a ++ b ≠ "" := by
  intro h
  apply ha
  have hd : a.data ++ b.data = ([] : List Char) := congrArg String.data h
  have ha' : a.data = [] := (List.append_eq_nil.mp hd).1
  cases a with
  | mk la =>
    have : la = [] := ha'
    rw [this]

/-- A state satisfying the four fill-in invariants is a fixed point of
derivation. -/
theorem derive_tag_fields_fixpoint (y : TagState)
    (h1 : y.base_material ≠ "" → y.filament_material ≠ "")
    (h2 : y.color_name ≠ "" → y.filament_color ≠ "")
    (h3 : y.color_1_rgba ≠ "" → y.filament_color ≠ "")
    (h4 : y.print_temperature ≠ 0 → y.recommended_nozzle_temp ≠ 0)
    (h5 : y.bed_temperature ≠ 0 → y.recommended_bed_temp ≠ 0) :
    derive_tag_fields y = y := by
  rw [derive_tag_fields_eq]
  have hfm : (if y.base_material ≠ "" ∧ y.filament_material = "" then
      (if y.material_modifiers ≠ "" then
        y.base_material ++ " " ++ y.material_modifiers
       else y.base_material)
      else y.filament_material) = y.filament_material := by
    split_ifs with hc hm
    · exact absurd hc.2 (h1 hc.1)
    · exact absurd hc.2 (h1 hc.1)
    · rfl
  have hfc : (if y.filament_color = "" then
      (if y.color_name ≠ "" then y.color_name
       else if y.color_1_rgba ≠ "" then y.color_1_rgba else y.filament_color)
      else y.filament_color) = y.filament_color := by
    split_ifs with hc hn hcc
    · exact absurd hc (h2 hn)
    · exact absurd hc (h3 hcc)
    · rfl
    · rfl
  have hrnt : (if y.recommended_nozzle_temp = 0 then
      (if y.print_temperature ≠ 0 then y.print_temperature
       else y.recommended_nozzle_temp)
      else y.recommended_nozzle_temp) = y.recommended_nozzle_temp := by
    split_ifs with hc hp
    · exact absurd hc (h4 hp)
    · rfl
    · rfl
  have hrbt : (if y.recommended_bed_temp = 0 then
      (if y.bed_temperature ≠ 0 then y.bed_temperature
       else y.recommended_bed_temp)
      else y.recommended_bed_temp) = y.recommended_bed_temp := by
    split_ifs with hc hp
    · exact absurd hc (h5 hp)
    · rfl
    · rfl
  rw [hfm, hfc, hrnt, hrbt]

/-- A derivation output satisfies the four fill-in invariants. -/
theorem derive_post (x : TagState) :
    ((derive_tag_fields x).base_material ≠ "" →
      (derive_tag_fields x).filament_material ≠ "") ∧
    ((derive_tag_fields x).color_name ≠ "" →
      (derive_tag_fields x).filament_color ≠ "") ∧
    ((derive_tag_fields x).color_1_rgba ≠ "" →
      (derive_tag_fields x).filament_color ≠ "") ∧
    ((derive_tag_fields x).print_temperature ≠ 0 →
      (derive_tag_fields x).recommended_nozzle_temp ≠ 0) ∧
    ((derive_tag_fields x).bed_temperature ≠ 0 →
      (derive_tag_fields x).recommended_bed_temp ≠ 0) := by
  rw [derive_tag_fields_eq]
  dsimp only
  refine ⟨?_, ?_, ?_, ?_, ?_⟩
  · intro hb
    split_ifs with hc hm
    · exact string_append_ne_empty _ _ (string_append_ne_empty _ _ hb)
    · exact hb
    · tauto
  · intro h
    split_ifs <;> tauto
  · intro h
    split_ifs <;> tauto
  · intro h
    split_ifs <;> tauto
  · intro h
    split_ifs <;> tauto

theorem derive_tag_fields_idem (x : TagState) :
    derive_tag_fields (derive_tag_fields x) = derive_tag_fields x := by
  obtain ⟨h1, h2, h3, h4, h5⟩ := derive_post x
  exact derive_tag_fields_fixpoint _ h1 h2 h3 h4 h5

/-- Derivation stability is an invariant of the merge command: starting
from a stable state (such as the initial all-empty state), the state after
any invocation is stable again. -/
theorem stateAfter_derive_stable (st : TagState) (p : GCmdParams)
    (hst : derive_tag_fields st = st) :
    derive_tag_fields (stateAfter st p) = stateAfter st p := by
  unfold stateAfter cmd_SET_OPENTAG3D_DATA
  cases hb : buildUpdateData p with
  | error e => simpa using hst
  | ok u =>
    by_cases hn : updateNonempty u = true
    · simp only [hn, if_true, tag_callback]
      exact derive_tag_fields_idem _
    · simp only [if_neg hn]
      exact hst

end OpenTag3D
